import Mathlib

/-
Verification of the Timeline component (src/charts/HTMLTimeline.tsx).

The component is a dual-handle range slider over a sparse axis of data
years.  Its state fields and its computed accessors are embedded below as a
record `Timeline` with functions over it.  Times are modelled as rationals
(the source works with JS numbers; all the properties verified here are
order- and field-arithmetic facts that do not depend on binary rounding).

Helpers imported by HTMLTimeline.tsx from ./Util and ./TimeBounds are not
part of the sources; they are modelled from the specification and marked
`Modelled from the spec:` in their doc comments.
-/

set_option linter.unusedVariables false

namespace OwidTimeline

/-- Fallback lower bound DEFAULT_MIN_YEAR used when the year axis is empty. -/
def DEFAULT_MIN_YEAR : ℚ := 1900

/-- Fallback upper bound DEFAULT_MAX_YEAR used when the year axis is empty. -/
def DEFAULT_MAX_YEAR : ℚ := 2000

/-- Modelled from the spec: `TimeBound` (from ./TimeBounds, not under src/) is
"either a concrete Year, or one of two sentinel values meaning unbounded left
... or unbounded right".  In the source the sentinels are numeric infinities;
here they are constructors, with the numeric order given by `TimeBound.le`. -/
inductive TimeBound where
  | unboundedLeft : TimeBound
  | year : ℚ → TimeBound
  | unboundedRight : TimeBound
deriving DecidableEq, Repr

/-- Modelled from the spec: `isUnboundedLeft` (./TimeBounds) recognises the
unbounded-left sentinel. -/
def isUnboundedLeft : TimeBound → Bool
  | TimeBound.unboundedLeft => true
  | _ => false

/-- Modelled from the spec: `isUnboundedRight` (./TimeBounds) recognises the
unbounded-right sentinel. -/
def isUnboundedRight : TimeBound → Bool
  | TimeBound.unboundedRight => true
  | _ => false

/-- Modelled from the spec: `isUnbounded` (./TimeBounds) recognises either
sentinel. -/
def isUnbounded (b : TimeBound) : Bool :=
  isUnboundedLeft b || isUnboundedRight b

/-- Numeric order on bounds: the unbounded-left sentinel is JS `-Infinity`
and the unbounded-right sentinel is `+Infinity`, so sentinels compare below
resp. above every concrete year. -/
def TimeBound.le : TimeBound → TimeBound → Bool
  | TimeBound.unboundedLeft, _ => true
  | _, TimeBound.unboundedRight => true
  | TimeBound.unboundedRight, _ => false
  | _, TimeBound.unboundedLeft => false
  | TimeBound.year a, TimeBound.year b => decide (a ≤ b)

/-- Model of `Math.min` on two bounds under the numeric order above. -/
def tbMin (a b : TimeBound) : TimeBound :=
  if a.le b then a else b

/-- Model of `Math.max` on two bounds under the numeric order above. -/
def tbMax (a b : TimeBound) : TimeBound :=
  if a.le b then b else a

/-- Modelled from the spec: `Util.first`, the first element of a list if any. -/
def first (l : List ℚ) : Option ℚ :=
  l.head?

/-- Modelled from the spec: `Util.last`, the last element of a list if any. -/
def lastElem (l : List ℚ) : Option ℚ :=
  l.getLast?

/-- One fold step of the closest-year search: keep the incumbent unless the
candidate is strictly closer to the query. -/
def closerStep (y b c : ℚ) : ℚ :=
  if |c - y| < |b - y| then c else b

/-- Modelled from the spec: `Util.findClosestYear` returns "the closest value
present in the year axis (nearest by absolute numeric distance; ties
unspecified — implementer may pick either neighbor deterministically, e.g.
lower index on tie)"; `none` on an empty axis.  This model keeps the earliest
element on ties. -/
def findClosestYear (years : List ℚ) (y : ℚ) : Option ℚ :=
  match years with
  | [] => none
  | c :: rest => some (rest.foldl (closerStep y) c)

/-- Modelled from the spec: `getBoundFromTimeRange` (./TimeBounds).  Per the
spec's pointer protocol a drag stores the clamped input year as the new bound
("target = start → set start bound only" to the clamped year), so a concrete
input time is stored as the concrete bound for that time. -/
def getBoundFromTimeRange (domain : ℚ × ℚ) (time : ℚ) : TimeBound :=
  TimeBound.year time

/-- State of the Timeline component: the props it reads, its observable
fields, and the scheduling/subscription resources it owns.  `animRequest` and
`queuedAnimationFrame` hold the ids of pending animation-frame requests
(`none` when no request is pending); `listenersAttached` and
`reactionsActive` record whether the document listeners and the mobx
reactions installed by `componentDidMount` are still in place. -/
structure Timeline where
  years : List ℚ
  propsStartYear : TimeBound
  propsEndYear : TimeBound
  singleYearMode : Bool
  singleYearPlay : Bool
  isPlaying : Bool
  dragTarget : Option String
  startYearRaw : TimeBound
  endYearRaw : TimeBound
  dragOffsets : ℚ × ℚ
  animRequest : Option ℕ
  queuedAnimationFrame : Option ℕ
  listenersAttached : Bool
  reactionsActive : Bool
deriving DecidableEq, Repr

/-- Computed `isDragging`: whether some drag target is set. -/
def isDragging (s : Timeline) : Bool :=
  s.dragTarget.isSome

/-- Computed `minYear`: first axis year, or the default on an empty axis. -/
def minYear (s : Timeline) : ℚ :=
  (first s.years).getD DEFAULT_MIN_YEAR

/-- Computed `maxYear`: last axis year, or the default on an empty axis. -/
def maxYear (s : Timeline) : ℚ :=
  (lastElem s.years).getD DEFAULT_MAX_YEAR

/-- Computed `timeDomain`: the pair [minYear, maxYear]. -/
def timeDomain (s : Timeline) : ℚ × ℚ :=
  (minYear s, maxYear s)

/-- Computed `startYear`: the resolved start bound, `Math.min` of the raws. -/
def startYear (s : Timeline) : TimeBound :=
  tbMin s.startYearRaw s.endYearRaw

/-- Computed `endYear`: the resolved end bound, `Math.max` of the raws. -/
def endYear (s : Timeline) : TimeBound :=
  tbMax s.startYearRaw s.endYearRaw

/-- Method `getClampedYear`: clamp an input year into [minYear, maxYear]. -/
def getClampedYear (s : Timeline) (inputYear : ℚ) : ℚ :=
  min (maxYear s) (max (minYear s) inputYear)

/-- Method `getYearUI`: resolve a bound to a renderable year.  Sentinels resolve to
the axis extremes; a concrete bound is returned unchanged (the source returns
`bound` directly, without clamping). -/
def getYearUI (s : Timeline) (bound : TimeBound) : ℚ :=
  match bound with
  | TimeBound.unboundedLeft => minYear s
  | TimeBound.unboundedRight => maxYear s
  | TimeBound.year y => y

/-- Method `getClosest`: sentinels pass through; a concrete bound snaps to the
closest axis year, falling back to `defaultValue` when the axis is empty. -/
def getClosest (s : Timeline) (bound defaultValue : TimeBound) : TimeBound :=
  if isUnbounded bound then bound
  else
    match bound with
    | TimeBound.year y =>
        match findClosestYear s.years y with
        | some m => TimeBound.year m
        | none => defaultValue
    | b => b

/-- Computed `startYearUI`. -/
def startYearUI (s : Timeline) : ℚ :=
  getYearUI s (startYear s)

/-- Computed `endYearUI`. -/
def endYearUI (s : Timeline) : ℚ :=
  getYearUI s (endYear s)

/-- Computed `startYearClosest`. -/
def startYearClosest (s : Timeline) : TimeBound :=
  getClosest s (startYear s) TimeBound.unboundedLeft

/-- Computed `endYearClosest`. -/
def endYearClosest (s : Timeline) : TimeBound :=
  getClosest s (endYear s) TimeBound.unboundedRight

/-- Action `onStartYearChange`: store the bound for an input year as the raw start. -/
def onStartYearChange (s : Timeline) (inputYear : ℚ) : Timeline :=
  { s with startYearRaw := getBoundFromTimeRange (timeDomain s) inputYear }

/-- Action `onEndYearChange`: store the bound for an input year as the raw end. -/
def onEndYearChange (s : Timeline) (inputYear : ℚ) : Timeline :=
  { s with endYearRaw := getBoundFromTimeRange (timeDomain s) inputYear }

/-- Action `onSingleYearChange`: store the bound for an input year as both raws. -/
def onSingleYearChange (s : Timeline) (inputYear : ℚ) : Timeline :=
  let y := getBoundFromTimeRange (timeDomain s) inputYear
  { s with startYearRaw := y, endYearRaw := y }

/-- Action `onRangeYearChange`: store bounds for a (start, end) pair of years. -/
def onRangeYearChange (s : Timeline) (range : ℚ × ℚ) : Timeline :=
  { s with
    startYearRaw := getBoundFromTimeRange (timeDomain s) range.1,
    endYearRaw := getBoundFromTimeRange (timeDomain s) range.2 }

/-- Action `onDrag`: dispatch a pointer-move at `inputYear` according to the mode
flags and the current drag target, mirroring the if/else chain of the
source (single-year modes first, then targets "start", "end", "both"). -/
def onDrag (s : Timeline) (inputYear : ℚ) : Timeline :=
  let clampedYear := getClampedYear s inputYear
  if s.singleYearMode || (s.isPlaying && s.singleYearPlay) then
    onSingleYearChange s clampedYear
  else if s.dragTarget = some "start" then
    onStartYearChange s clampedYear
  else if s.dragTarget = some "end" then
    onEndYearChange s clampedYear
  else if s.dragTarget = some "both" then
    let startY0 := s.dragOffsets.1 + inputYear
    let endY0 := s.dragOffsets.2 + inputYear
    let range :=
      if startY0 < minYear s then
        (minYear s,
         getClampedYear s (minYear s + (s.dragOffsets.2 - s.dragOffsets.1)))
      else if endY0 > maxYear s then
        (getClampedYear s (maxYear s + (s.dragOffsets.1 - s.dragOffsets.2)),
         maxYear s)
      else (startY0, endY0)
    onRangeYearChange s range
  else s

/-- The dragOffsets recording of `onMouseDown` when the target is "both":
signed offsets of the two resolved handles relative to the pointer year. -/
def recordBothDragOffsets (s : Timeline) (inputYear : ℚ) : Timeline :=
  { s with dragOffsets := (startYearUI s - inputYear, endYearUI s - inputYear) }

/-- JS `Array.prototype.indexOf`: index of the first occurrence, or -1. -/
def jsIndexOf : List ℚ → ℚ → Int
  | [], _ => -1
  | c :: rest, y =>
      if c = y then 0
      else
        let r := jsIndexOf rest y
        if r = -1 then -1 else r + 1

/-- The `ticksPerSec` constant of `onStartPlaying`. -/
def ticksPerSec : ℚ := 5

/-- Result of one `playFrame` tick: the new component state, the new
`lastTime` closure variable, and whether another frame was requested. -/
structure FrameResult where
  state : Timeline
  lastTime : Option ℚ
  rescheduled : Bool
deriving DecidableEq, Repr

/-- One tick of the `playFrame` callback of `onStartPlaying`.  When not
playing it returns immediately; a first tick (no recorded `lastTime`) only
rewinds to the minimum year if the end is already at the maximum; later ticks
either stop playback (end at or past the maximum) or advance the raw end by
the elapsed-time-scaled step.  The axis lookup `years[indexOf(endYearUI)+1]`
is in range whenever the axis is nonempty (for an absent `endYearUI` the JS
`indexOf` is -1 and index 0 is read); on an empty axis the JS source would
read `undefined` and produce NaN — modelled by the (unreached) default 0. -/
def playFrame (s : Timeline) (lastTime : Option ℚ) (time : ℚ) : FrameResult :=
  if s.isPlaying = false then ⟨s, lastTime, false⟩
  else
    let s1 :=
      match lastTime with
      | none =>
          if endYearUI s ≥ maxYear s then
            { s with
              startYearRaw := TimeBound.year (minYear s),
              endYearRaw := TimeBound.year (minYear s) }
          else s
      | some lt =>
          let elapsed := time - lt
          if endYearUI s ≥ maxYear s then { s with isPlaying := false }
          else
            let nextYear := s.years.getD (jsIndexOf s.years (endYearUI s) + 1).toNat 0
            let yearsToNext := nextYear - endYearUI s
            let newEnd :=
              endYearUI s + (max (yearsToNext / 3) 1 * elapsed * ticksPerSec) / 1000
            let s2 := { s with endYearRaw := TimeBound.year newEnd }
            if s.singleYearMode || s.singleYearPlay then
              { s2 with startYearRaw := s2.endYearRaw }
            else s2
    ⟨s1, some time, true⟩

/-- Lifecycle `componentWillUnmount`: removes the five document listeners and disposes
the mobx reactions.  It does not touch `animRequest` or
`queuedAnimationFrame` and never calls `cancelAnimationFrame`. -/
def componentWillUnmount (s : Timeline) : Timeline :=
  { s with listenersAttached := false, reactionsActive := false }

/-- The constructor warning: `console.warn` is invoked exactly when the years
array is empty; construction never throws. -/
def constructorWarns (years : List ℚ) : Bool :=
  decide (years.length = 0)

/-- The pair emitted to `onTargetChange` by the autorun of
`componentDidMount`: the snapped resolved bounds. -/
def emittedTarget (s : Timeline) : TimeBound × TimeBound :=
  (startYearClosest s, endYearClosest s)

/-- The idle-snap autorun of `componentDidMount`: when neither playing nor
dragging, atomically reassign both raw bounds to the snapped resolved pair
computed from the pre-state. -/
def idleSnap (s : Timeline) : Timeline :=
  if s.isPlaying = false ∧ isDragging s = false then
    { s with
      startYearRaw := startYearClosest s,
      endYearRaw := endYearClosest s }
  else s

/-- The `startYearProgress` position math of `render`. -/
def startYearProgress (s : Timeline) : ℚ :=
  (startYearUI s - minYear s) / (maxYear s - minYear s)

/-- The `endYearProgress` position math of `render`. -/
def endYearProgress (s : Timeline) : ℚ :=
  (endYearUI s - minYear s) / (maxYear s - minYear s)

/-- Convenience builder for concrete states used in tests below: a freshly
mounted component with the given axis and raw bounds, not playing, not
dragging. -/
def mkTimeline (years : List ℚ) (sRaw eRaw : TimeBound) : Timeline :=
  { years := years
    propsStartYear := sRaw
    propsEndYear := eRaw
    singleYearMode := false
    singleYearPlay := false
    isPlaying := false
    dragTarget := none
    startYearRaw := sRaw
    endYearRaw := eRaw
    dragOffsets := (0, 0)
    animRequest := none
    queuedAnimationFrame := none
    listenersAttached := true
    reactionsActive := true }

/-! ### Order facts about TimeBound -/

/-- The numeric order on bounds is total. -/
lemma tbLe_total (a b : TimeBound) : a.le b = true ∨ b.le a = true := by
  cases a <;> cases b <;> simp [TimeBound.le] <;> exact le_total _ _

/-- When `a ≤ b`, `Math.min` returns the left argument. -/
lemma tbMin_eq_left {a b : TimeBound} (h : a.le b = true) : tbMin a b = a := by
  simp [tbMin, h]

/-- When `a ≤ b`, `Math.max` returns the right argument. -/
lemma tbMax_eq_right {a b : TimeBound} (h : a.le b = true) : tbMax a b = b := by
  simp [tbMax, h]

/-- Model `Math.min` of two bounds is below model `Math.max` of the same bounds. -/
lemma tbLe_min_max (a b : TimeBound) : (tbMin a b).le (tbMax a b) = true := by
  by_cases h : a.le b = true
  · rw [tbMin_eq_left h, tbMax_eq_right h]; exact h
  · rcases tbLe_total a b with h2 | h2
    · exact absurd h2 h
    · simp only [tbMin, tbMax, h, if_false, Bool.false_eq_true]
      exact h2

/-- Nothing is above the unbounded-left sentinel except itself. -/
lemma tbLe_unboundedLeft {b : TimeBound}
    (h : b.le TimeBound.unboundedLeft = true) : b = TimeBound.unboundedLeft := by
  cases b <;> simp [TimeBound.le] at h <;> rfl

/-- Nothing is below the unbounded-right sentinel except itself. -/
lemma unboundedRight_tbLe {b : TimeBound}
    (h : TimeBound.unboundedRight.le b = true) : b = TimeBound.unboundedRight := by
  cases b <;> simp [TimeBound.le] at h <;> rfl

/-! ### Facts about the closest-year search -/

/-- The fold of `closerStep` yields the seed or a list element. -/
lemma foldl_closerStep_mem (y : ℚ) (l : List ℚ) (c : ℚ) :
    l.foldl (closerStep y) c = c ∨ l.foldl (closerStep y) c ∈ l := by
  induction l generalizing c with
  | nil => exact Or.inl rfl
  | cons d rest ih =>
    simp only [List.foldl_cons]
    rcases ih (closerStep y c d) with h | h
    · rw [h]
      unfold closerStep
      split
      · exact Or.inr (List.mem_cons_self d rest)
      · exact Or.inl rfl
    · exact Or.inr (List.mem_cons_of_mem d h)

/-- The fold of `closerStep` is at least as close to the query as the seed
and as every list element. -/
lemma foldl_closerStep_min (y : ℚ) (l : List ℚ) (c : ℚ) :
    |l.foldl (closerStep y) c - y| ≤ |c - y| ∧
      ∀ d ∈ l, |l.foldl (closerStep y) c - y| ≤ |d - y| := by
  induction l generalizing c with
  | nil =>
    refine ⟨le_refl _, ?_⟩
    intro d hd
    exact absurd hd (List.not_mem_nil d)
  | cons d rest ih =>
    obtain ⟨h1, h2⟩ := ih (closerStep y c d)
    have hseed : |closerStep y c d - y| ≤ |c - y| := by
      unfold closerStep
      split
      · exact le_of_lt (by assumption)
      · exact le_refl _
    have hhead : |closerStep y c d - y| ≤ |d - y| := by
      unfold closerStep
      split
      · exact le_refl _
      · exact le_of_not_lt (by assumption)
    refine ⟨le_trans h1 hseed, ?_⟩
    intro e he
    rcases List.mem_cons.mp he with rfl | he2
    · exact le_trans h1 hhead
    · exact h2 e he2

/-- A found closest year is an element of the axis. -/
lemma findClosestYear_mem {l : List ℚ} {y m : ℚ}
    (h : findClosestYear l y = some m) : m ∈ l := by
  cases l with
  | nil => simp [findClosestYear] at h
  | cons c rest =>
    simp only [findClosestYear, Option.some.injEq] at h
    rcases foldl_closerStep_mem y rest c with h2 | h2
    · rw [← h, h2]; exact List.mem_cons_self c rest
    · rw [← h]; exact List.mem_cons_of_mem c h2

/-- A found closest year minimises the absolute distance to the query over
the axis. -/
lemma findClosestYear_min {l : List ℚ} {y m : ℚ}
    (h : findClosestYear l y = some m) : ∀ c ∈ l, |m - y| ≤ |c - y| := by
  cases l with
  | nil => simp [findClosestYear] at h
  | cons c rest =>
    simp only [findClosestYear, Option.some.injEq] at h
    obtain ⟨h1, h2⟩ := foldl_closerStep_min y rest c
    intro e he
    rcases List.mem_cons.mp he with rfl | he2
    · rw [← h]; exact h1
    · rw [← h]; exact h2 e he2

/-- A nonempty axis always yields a closest year. -/
lemma findClosestYear_isSome {l : List ℚ} (h : l ≠ []) (y : ℚ) :
    ∃ m, findClosestYear l y = some m := by
  cases l with
  | nil => exact absurd rfl h
  | cons c rest => exact ⟨rest.foldl (closerStep y) c, rfl⟩

/-- Snapping a year already on the axis returns that year. -/
lemma findClosestYear_self {l : List ℚ} {y : ℚ} (h : y ∈ l) :
    findClosestYear l y = some y := by
  have hne : l ≠ [] := List.ne_nil_of_mem h
  obtain ⟨m, hm⟩ := findClosestYear_isSome hne y
  have hmin : |m - y| ≤ |y - y| := findClosestYear_min hm y h
  rw [sub_self, abs_zero] at hmin
  have : |m - y| = 0 := le_antisymm hmin (abs_nonneg _)
  have : m = y := by
    have := abs_eq_zero.mp this
    linarith
  rw [hm, this]

/-- The closest-year search is monotone in the query (for any axis). -/
lemma findClosestYear_mono {l : List ℚ} {x y a b : ℚ} (hxy : x ≤ y)
    (ha : findClosestYear l x = some a) (hb : findClosestYear l y = some b) :
    a ≤ b := by
  by_contra hab
  push_neg at hab
  rcases eq_or_lt_of_le hxy with rfl | hlt
  · rw [ha] at hb
    have : a = b := Option.some.inj hb
    linarith
  · have h1 : |a - x| ≤ |b - x| := findClosestYear_min ha b (findClosestYear_mem hb)
    have h2 : |b - y| ≤ |a - y| := findClosestYear_min hb a (findClosestYear_mem ha)
    rcases abs_cases (a - x) with ⟨e1, s1⟩ | ⟨e1, s1⟩ <;>
      rcases abs_cases (b - x) with ⟨e2, s2⟩ | ⟨e2, s2⟩ <;>
        rcases abs_cases (b - y) with ⟨e3, s3⟩ | ⟨e3, s3⟩ <;>
          rcases abs_cases (a - y) with ⟨e4, s4⟩ | ⟨e4, s4⟩ <;>
            rw [e1, e2] at h1 <;> rw [e3, e4] at h2 <;> linarith

/-! ### Claim C1 -/

/-- Claim C1: for every state — hence after every operation, whatever order
the raw bounds were assigned in — the resolved accessors are the min and max
of the raw bounds, and the resolved start is at or below the resolved end. -/
theorem c1_resolved_bounds_ordered (s : Timeline) :
    startYear s = tbMin s.startYearRaw s.endYearRaw ∧
    endYear s = tbMax s.startYearRaw s.endYearRaw ∧
    (startYear s).le (endYear s) = true :=
  ⟨rfl, rfl, tbLe_min_max s.startYearRaw s.endYearRaw⟩

/-! ### Facts about clamping -/

/-- Clamping never exceeds the axis maximum. -/
lemma clamp_le_max (s : Timeline) (y : ℚ) : getClampedYear s y ≤ maxYear s :=
  min_le_left _ _

/-- Clamping never goes below the axis minimum, provided the axis minimum is
at or below the axis maximum. -/
lemma min_le_clamp (s : Timeline) (y : ℚ) (h : minYear s ≤ maxYear s) :
    minYear s ≤ getClampedYear s y :=
  le_min h (le_max_left _ _)

/-- Clamping a year at or above the minimum does not increase it. -/
lemma clamp_le_self (s : Timeline) {y : ℚ} (h : minYear s ≤ y) :
    getClampedYear s y ≤ y := by
  rw [getClampedYear, max_eq_right h]
  exact min_le_right _ _

/-- Clamping a year at or below the maximum does not decrease it. -/
lemma self_le_clamp (s : Timeline) {y : ℚ} (h : y ≤ maxYear s) :
    y ≤ getClampedYear s y :=
  le_min h (le_max_right _ _)

/-! ### Claim C7 (corrected) -/

/-- Concrete state for the C7 counterexample: axis [1990, 2010]. -/
def c7state : Timeline :=
  mkTimeline [1990, 2010] (TimeBound.year 1990) (TimeBound.year 2010)

/-- Claim C7 counterexample: the claim says a concrete bound is clamped into
[minYear, maxYear] by `getYearUI`, so it "never resolves to a value outside
[minYear, maxYear]"; but `getYearUI` returns a concrete bound unchanged, so
the concrete bound 3000 resolves to 3000, above `maxYear = 2010`. -/
theorem c7_counterexample :
    ¬ getYearUI c7state (TimeBound.year 3000) ≤ maxYear c7state := by
  decide

/-- Claim C7 as amended: `getYearUI` maps the unbounded-left sentinel to the
minimum year and the unbounded-right sentinel to the maximum year, but
returns a concrete bound unchanged, without clamping; clamping into
[minYear, maxYear] is done by the separate `getClampedYear` (applied to drag
input years), which does stay inside the interval whenever the interval is
nonempty. -/
theorem c7_amended_getYearUI (s : Timeline) (y : ℚ) :
    getYearUI s TimeBound.unboundedLeft = minYear s ∧
    getYearUI s TimeBound.unboundedRight = maxYear s ∧
    getYearUI s (TimeBound.year y) = y ∧
    (minYear s ≤ maxYear s →
      minYear s ≤ getClampedYear s y ∧ getClampedYear s y ≤ maxYear s) := by
  refine ⟨rfl, rfl, rfl, ?_⟩
  intro h
  exact ⟨min_le_clamp s y h, clamp_le_max s y⟩

/-- Claim C7 amended, witnessed on the axis [1990, 2010] at the out-of-range
concrete year 3000. -/
theorem c7_amended_witness :
    getYearUI c7state TimeBound.unboundedLeft = minYear c7state ∧
    getYearUI c7state TimeBound.unboundedRight = maxYear c7state ∧
    getYearUI c7state (TimeBound.year 3000) = 3000 ∧
    (minYear c7state ≤ maxYear c7state →
      minYear c7state ≤ getClampedYear c7state 3000 ∧
      getClampedYear c7state 3000 ≤ maxYear c7state) :=
  c7_amended_getYearUI c7state 3000

/-! ### Claim C8 -/

/-- Concrete state for C8: a mounted component with an empty year axis. -/
def c8state : Timeline :=
  mkTimeline [] TimeBound.unboundedLeft TimeBound.unboundedRight

/-- Claim C8: with an empty year axis the constructor warns (and construction
is a total function, not a failure), `minYear`/`maxYear` fall back to the
documented default constants 1900 and 2000, and the denominator of the
position math is nonzero (no division by zero; rationals cannot overflow). -/
theorem c8_empty_axis_defaults :
    constructorWarns [] = true ∧
    minYear c8state = DEFAULT_MIN_YEAR ∧
    maxYear c8state = DEFAULT_MAX_YEAR ∧
    DEFAULT_MIN_YEAR = 1900 ∧
    DEFAULT_MAX_YEAR = 2000 ∧
    maxYear c8state - minYear c8state ≠ 0 := by
  refine ⟨rfl, rfl, rfl, rfl, rfl, ?_⟩
  show (2000 : ℚ) - 1900 ≠ 0
  norm_num

/-! ### Claim C5 (corrected) -/

/-- Concrete state for C5: axis [1990, 1995, 2000, 2005, 2010] with the
external range (unboundedLeft, unboundedRight) applied to the raw bounds. -/
def c5state : Timeline :=
  mkTimeline [1990, 1995, 2000, 2005, 2010]
    TimeBound.unboundedLeft TimeBound.unboundedRight

/-- Claim C5 counterexample: the pair emitted via `onTargetChange` for the
sentinel range is not the concrete pair (1990, 2010) — sentinels pass through
`getClosest` unchanged. -/
theorem c5_counterexample :
    emittedTarget c5state ≠ (TimeBound.year 1990, TimeBound.year 2010) := by
  decide

/-- Claim C5 as amended: for the axis [1990, 1995, 2000, 2005, 2010] and the
external range (unboundedLeft, unboundedRight), the pair emitted via
`onTargetChange` is the unchanged sentinel pair, and it is the UI resolution
(`startYearUI`, `endYearUI`) that yields the concrete pair (1990, 2010). -/
theorem c5_amended_emitted_sentinels :
    emittedTarget c5state = (TimeBound.unboundedLeft, TimeBound.unboundedRight) ∧
    startYearUI c5state = 1990 ∧
    endYearUI c5state = 2010 := by
  refine ⟨rfl, ?_, ?_⟩ <;> decide

/-! ### Claim C6 (corrected) -/

/-- Concrete state for the C6 counterexample: an empty year axis. -/
def c6state : Timeline :=
  mkTimeline [] (TimeBound.year 1990) (TimeBound.year 2010)

/-- Claim C6 counterexample: the claim says snapping a concrete bound returns
an element of the year axis for every axis, "including an empty one"; on the
empty axis snapping the concrete year 1995 returns the supplied default
sentinel, and no result could be an element of the empty axis. -/
theorem c6_counterexample :
    getClosest c6state (TimeBound.year 1995) TimeBound.unboundedLeft =
      TimeBound.unboundedLeft ∧
    ¬ ∃ m ∈ c6state.years,
        getClosest c6state (TimeBound.year 1995) TimeBound.unboundedLeft =
          TimeBound.year m := by
  refine ⟨rfl, ?_⟩
  rintro ⟨m, hm, _⟩
  exact absurd hm (List.not_mem_nil m)

/-- Claim C6 as amended: snapping passes sentinels through unchanged for
every axis; a concrete bound snaps to an element of the axis nearest by
absolute numeric distance whenever the axis is nonempty; on an empty axis a
concrete bound snaps to the supplied default sentinel instead. -/
theorem c6_amended_getClosest_spec (s : Timeline) (b d : TimeBound) :
    (isUnbounded b = true → getClosest s b d = b) ∧
    (∀ y : ℚ, b = TimeBound.year y → s.years ≠ [] →
      ∃ m, m ∈ s.years ∧ getClosest s b d = TimeBound.year m ∧
        ∀ c ∈ s.years, |m - y| ≤ |c - y|) ∧
    (∀ y : ℚ, b = TimeBound.year y → s.years = [] → getClosest s b d = d) := by
  have hyear : ∀ y : ℚ, getClosest s (TimeBound.year y) d =
      (match findClosestYear s.years y with
       | some m => TimeBound.year m
       | none => d) := fun y => rfl
  refine ⟨?_, ?_, ?_⟩
  · intro h
    cases b with
    | unboundedLeft => rfl
    | unboundedRight => rfl
    | year y => simp [isUnbounded, isUnboundedLeft, isUnboundedRight] at h
  · rintro y rfl hne
    obtain ⟨m, hm⟩ := findClosestYear_isSome hne y
    refine ⟨m, findClosestYear_mem hm, ?_, findClosestYear_min hm⟩
    rw [hyear y, hm]
  · rintro y rfl he
    rw [hyear y, he]
    exact rfl

/-- Concrete nonempty-axis state used by the C6 witness. -/
def c6wstate : Timeline :=
  mkTimeline [1990, 2000] (TimeBound.year 1990) (TimeBound.year 2000)

/-- Claim C6 amended, witnessed: a sentinel passes through on the axis
[1990, 2000]; the concrete year 1996 snaps to a nearest member of that axis;
and on the empty axis the concrete year 1996 snaps to the default. -/
theorem c6_amended_witness :
    getClosest c6wstate TimeBound.unboundedRight TimeBound.unboundedLeft =
      TimeBound.unboundedRight ∧
    (∃ m, m ∈ c6wstate.years ∧
      getClosest c6wstate (TimeBound.year 1996) TimeBound.unboundedLeft =
        TimeBound.year m ∧
      ∀ c ∈ c6wstate.years, |m - 1996| ≤ |c - 1996|) ∧
    getClosest c6state (TimeBound.year 1996) TimeBound.unboundedRight =
      TimeBound.unboundedRight :=
  ⟨(c6_amended_getClosest_spec c6wstate TimeBound.unboundedRight
      TimeBound.unboundedLeft).1 (by decide),
   (c6_amended_getClosest_spec c6wstate (TimeBound.year 1996)
      TimeBound.unboundedLeft).2.1 1996 rfl (by decide),
   (c6_amended_getClosest_spec c6state (TimeBound.year 1996)
      TimeBound.unboundedRight).2.2 1996 rfl rfl⟩

/-! ### Reduction lemmas for onDrag -/

/-- With single-year modes off and drag target "start", a pointer-move is the
start-bound update at the clamped input year. -/
lemma onDrag_start_eq (s : Timeline) (ι : ℚ)
    (h1 : s.singleYearMode = false)
    (h2 : (s.isPlaying && s.singleYearPlay) = false)
    (h3 : s.dragTarget = some "start") :
    onDrag s ι = onStartYearChange s (getClampedYear s ι) := by
  simp [onDrag, h1, h2, h3]

/-- With single-year modes off and drag target "both", a pointer-move is the
range update at the offset-shifted pair, pinned at whichever axis edge the
shifted start or end crosses. -/
lemma onDrag_both_eq (s : Timeline) (ι : ℚ)
    (h1 : s.singleYearMode = false)
    (h2 : (s.isPlaying && s.singleYearPlay) = false)
    (h3 : s.dragTarget = some "both") :
    onDrag s ι = onRangeYearChange s
      (if s.dragOffsets.1 + ι < minYear s then
        (minYear s,
         getClampedYear s (minYear s + (s.dragOffsets.2 - s.dragOffsets.1)))
      else if maxYear s < s.dragOffsets.2 + ι then
        (getClampedYear s (maxYear s + (s.dragOffsets.1 - s.dragOffsets.2)),
         maxYear s)
      else (s.dragOffsets.1 + ι, s.dragOffsets.2 + ι)) := by
  simp [onDrag, h1, h2, h3]

/-- The resolved start after a range update is the smaller of the pair. -/
lemma startYearUI_onRange (s : Timeline) (p : ℚ × ℚ) :
    startYearUI (onRangeYearChange s p) = min p.1 p.2 := by
  by_cases h : p.1 ≤ p.2 <;>
    simp [startYearUI, startYear, onRangeYearChange, getBoundFromTimeRange,
      tbMin, TimeBound.le, getYearUI, min_def, h]

/-- The resolved end after a range update is the larger of the pair. -/
lemma endYearUI_onRange (s : Timeline) (p : ℚ × ℚ) :
    endYearUI (onRangeYearChange s p) = max p.1 p.2 := by
  by_cases h : p.1 ≤ p.2 <;>
    simp [endYearUI, endYear, onRangeYearChange, getBoundFromTimeRange,
      tbMax, TimeBound.le, getYearUI, max_def, h]

/-! ### Claim C9 -/

/-- Claim C9: while dragging the "start" handle (and not in a single-year
mode), a pointer-move stores the bound for the clamped input year as the raw
start only; the raw end — and every other observable field — is untouched,
even when the new start crosses past the end. -/
theorem c9_drag_start_frame_effect (s : Timeline) (ι : ℚ)
    (h1 : s.singleYearMode = false)
    (h2 : (s.isPlaying && s.singleYearPlay) = false)
    (h3 : s.dragTarget = some "start") :
    (onDrag s ι).endYearRaw = s.endYearRaw ∧
    (onDrag s ι).startYearRaw = TimeBound.year (getClampedYear s ι) ∧
    (onDrag s ι).years = s.years ∧
    (onDrag s ι).isPlaying = s.isPlaying ∧
    (onDrag s ι).dragTarget = s.dragTarget ∧
    (onDrag s ι).dragOffsets = s.dragOffsets := by
  rw [onDrag_start_eq s ι h1 h2 h3]
  exact ⟨rfl, rfl, rfl, rfl, rfl, rfl⟩

/-- Concrete state for the C9 witness: dragging "start" with the raw end at
1994 and an input year past it. -/
def c9state : Timeline :=
  { mkTimeline [1990, 2000] (TimeBound.year 1992) (TimeBound.year 1994) with
    dragTarget := some "start" }

/-- Claim C9, witnessed at an input year (1998) that crosses past the raw
end (1994): the raw end is still untouched. -/
theorem c9_witness :
    (onDrag c9state 1998).endYearRaw = c9state.endYearRaw ∧
    (onDrag c9state 1998).startYearRaw =
      TimeBound.year (getClampedYear c9state 1998) ∧
    (onDrag c9state 1998).years = c9state.years ∧
    (onDrag c9state 1998).isPlaying = c9state.isPlaying ∧
    (onDrag c9state 1998).dragTarget = c9state.dragTarget ∧
    (onDrag c9state 1998).dragOffsets = c9state.dragOffsets :=
  c9_drag_start_frame_effect c9state 1998 rfl rfl rfl

/-! ### Claim C2 -/

/-- Concrete state for the C2 scenario before pointer-down: axis
[1990, 1995, 2000, 2005, 2010] with range (1995, 2005) and a "both" drag
starting. -/
def c2base : Timeline :=
  { mkTimeline [1990, 1995, 2000, 2005, 2010]
      (TimeBound.year 1995) (TimeBound.year 2005) with
    dragTarget := some "both" }

/-- Concrete state for the C2 scenario: pointer-down for the "both" drag at
input year 2000 records dragOffsets (-5, 5). -/
def c2state : Timeline :=
  recordBothDragOffsets c2base 2000

/-- The resolved start of the scenario base state. -/
lemma c2base_startYearUI : startYearUI c2base = 1995 := by
  norm_num [startYearUI, startYear, c2base, mkTimeline, tbMin, TimeBound.le,
    getYearUI]

/-- The resolved end of the scenario base state. -/
lemma c2base_endYearUI : endYearUI c2base = 2005 := by
  norm_num [endYearUI, endYear, c2base, mkTimeline, tbMax, TimeBound.le,
    getYearUI]

/-- The dragOffsets recorded by the scenario pointer-down at 2000. -/
lemma c2state_dragOffsets : c2state.dragOffsets = (-5, 5) := by
  show (startYearUI c2base - 2000, endYearUI c2base - 2000) = (-5, 5)
  rw [c2base_startYearUI, c2base_endYearUI]
  norm_num

/-- Claim C2: dragging with target "both" applies the recorded dragOffsets to
the input year; the resolved result stays inside [minYear, maxYear] and never
inverts, the width may only shrink; away from the axis edges the offsets are
applied exactly (width preserved); at an edge the hit side is pinned and the
other side is recomputed from the original width and clamped.  The final
conjunct is the spec's scenario: range (1995, 2005) dragged so the raw start
would be 1985 on an axis with minimum 1990 yields (1990, 2000). -/
theorem c2_drag_both_pinned_width (s : Timeline) (ι : ℚ)
    (h1 : s.singleYearMode = false)
    (h2 : (s.isPlaying && s.singleYearPlay) = false)
    (h3 : s.dragTarget = some "both")
    (h4 : s.dragOffsets.1 ≤ s.dragOffsets.2)
    (h5 : minYear s ≤ maxYear s) :
    (minYear s ≤ startYearUI (onDrag s ι) ∧
     endYearUI (onDrag s ι) ≤ maxYear s ∧
     startYearUI (onDrag s ι) ≤ endYearUI (onDrag s ι) ∧
     endYearUI (onDrag s ι) - startYearUI (onDrag s ι) ≤
       s.dragOffsets.2 - s.dragOffsets.1) ∧
    (minYear s ≤ s.dragOffsets.1 + ι → s.dragOffsets.2 + ι ≤ maxYear s →
      startYearUI (onDrag s ι) = s.dragOffsets.1 + ι ∧
      endYearUI (onDrag s ι) = s.dragOffsets.2 + ι) ∧
    (s.dragOffsets.1 + ι < minYear s →
      startYearUI (onDrag s ι) = minYear s ∧
      endYearUI (onDrag s ι) =
        getClampedYear s (minYear s + (s.dragOffsets.2 - s.dragOffsets.1))) ∧
    (minYear s ≤ s.dragOffsets.1 + ι → maxYear s < s.dragOffsets.2 + ι →
      startYearUI (onDrag s ι) =
        getClampedYear s (maxYear s + (s.dragOffsets.1 - s.dragOffsets.2)) ∧
      endYearUI (onDrag s ι) = maxYear s) ∧
    (startYearUI (onDrag c2state 1990) = 1990 ∧
     endYearUI (onDrag c2state 1990) = 2000) := by
  have hmin : minYear c2state = 1990 := rfl
  have hmax : maxYear c2state = 2010 := rfl
  have hscenario : startYearUI (onDrag c2state 1990) = 1990 ∧
      endYearUI (onDrag c2state 1990) = 2000 := by
    rw [onDrag_both_eq c2state 1990 rfl rfl rfl, c2state_dragOffsets, hmin, hmax]
    have hcond : ((-5 : ℚ), (5 : ℚ)).1 + 1990 < (1990 : ℚ) := by norm_num
    rw [if_pos hcond, startYearUI_onRange, endYearUI_onRange]
    constructor <;> norm_num [getClampedYear, hmin, hmax]
  rw [onDrag_both_eq s ι h1 h2 h3]
  by_cases hA : s.dragOffsets.1 + ι < minYear s
  · rw [if_pos hA, startYearUI_onRange, endYearUI_onRange]
    have hd : (0 : ℚ) ≤ s.dragOffsets.2 - s.dragOffsets.1 := by linarith
    have hmc : minYear s ≤
        getClampedYear s (minYear s + (s.dragOffsets.2 - s.dragOffsets.1)) :=
      min_le_clamp s _ h5
    have hcm : getClampedYear s (minYear s + (s.dragOffsets.2 - s.dragOffsets.1)) ≤
        maxYear s := clamp_le_max s _
    have hcw : getClampedYear s (minYear s + (s.dragOffsets.2 - s.dragOffsets.1)) ≤
        minYear s + (s.dragOffsets.2 - s.dragOffsets.1) :=
      clamp_le_self s (by linarith)
    rw [min_eq_left hmc, max_eq_right hmc]
    refine ⟨⟨le_refl _, hcm, hmc, by linarith⟩, ?_, ?_, ?_, hscenario⟩
    · intro hc _; exact absurd hc (not_le.mpr hA)
    · intro _; exact ⟨rfl, rfl⟩
    · intro hc _; exact absurd hc (not_le.mpr hA)
  · rw [if_neg hA]
    push_neg at hA
    by_cases hB : maxYear s < s.dragOffsets.2 + ι
    · rw [if_pos hB, startYearUI_onRange, endYearUI_onRange]
      have hd : (0 : ℚ) ≤ s.dragOffsets.2 - s.dragOffsets.1 := by linarith
      have hmc : minYear s ≤
          getClampedYear s (maxYear s + (s.dragOffsets.1 - s.dragOffsets.2)) :=
        min_le_clamp s _ h5
      have hcm : getClampedYear s (maxYear s + (s.dragOffsets.1 - s.dragOffsets.2)) ≤
          maxYear s := clamp_le_max s _
      have hwc : maxYear s + (s.dragOffsets.1 - s.dragOffsets.2) ≤
          getClampedYear s (maxYear s + (s.dragOffsets.1 - s.dragOffsets.2)) :=
        self_le_clamp s (by linarith)
      rw [min_eq_left hcm, max_eq_right hcm]
      refine ⟨⟨hmc, le_refl _, hcm, by linarith⟩, ?_, ?_, ?_, hscenario⟩
      · intro _ hc; exact absurd hc (not_le.mpr hB)
      · intro hc; exact absurd hc (not_lt.mpr hA)
      · intro _ _; exact ⟨rfl, rfl⟩
    · rw [if_neg hB]
      push_neg at hB
      rw [startYearUI_onRange, endYearUI_onRange]
      have hab : s.dragOffsets.1 + ι ≤ s.dragOffsets.2 + ι := by linarith
      rw [min_eq_left hab, max_eq_right hab]
      refine ⟨⟨hA, hB, hab, by linarith⟩, ?_, ?_, ?_, hscenario⟩
      · intro _ _; exact ⟨rfl, rfl⟩
      · intro hc; exact absurd hc (not_lt.mpr hA)
      · intro _ hc; exact absurd hc (not_lt.mpr hB)

/-- Claim C2, witnessed on the scenario state itself: the hypotheses hold for
the concrete pointer-down at 2000, and the drag to input year 1990 pins the
range at (1990, 2000). -/
theorem c2_witness :
    (minYear c2state ≤ startYearUI (onDrag c2state 1990) ∧
     endYearUI (onDrag c2state 1990) ≤ maxYear c2state ∧
     startYearUI (onDrag c2state 1990) ≤ endYearUI (onDrag c2state 1990) ∧
     endYearUI (onDrag c2state 1990) - startYearUI (onDrag c2state 1990) ≤
       c2state.dragOffsets.2 - c2state.dragOffsets.1) ∧
    (startYearUI (onDrag c2state 1990) = 1990 ∧
     endYearUI (onDrag c2state 1990) = 2000) := by
  have h := c2_drag_both_pinned_width c2state 1990 rfl rfl rfl
    (by rw [c2state_dragOffsets]; norm_num)
    (by rw [show minYear c2state = 1990 from rfl, show maxYear c2state = 2010 from rfl]; norm_num)
  exact ⟨h.1, h.2.2.2.2⟩

/-! ### Claim C3 -/

/-- Claim C3: while playing with the resolved end at or past the maximum
year, the first tick (no recorded lastTime) rewinds both raw bounds to the
minimum year and keeps playing (loop-restart); any later tick stops playback
(isPlaying becomes false) and leaves both raw bounds unchanged; and once
isPlaying is false every tick returns the state unchanged without requesting
another frame, so no further advancement occurs in that run. -/
theorem c3_playback_rewind_and_stop (s : Timeline) (t lt : ℚ)
    (hp : s.isPlaying = true)
    (hend : endYearUI s ≥ maxYear s) :
    ((playFrame s none t).state.startYearRaw = TimeBound.year (minYear s) ∧
     (playFrame s none t).state.endYearRaw = TimeBound.year (minYear s) ∧
     (playFrame s none t).state.isPlaying = true) ∧
    ((playFrame s (some lt) t).state.isPlaying = false ∧
     (playFrame s (some lt) t).state.startYearRaw = s.startYearRaw ∧
     (playFrame s (some lt) t).state.endYearRaw = s.endYearRaw) ∧
    (∀ (s2 : Timeline) (lt2 : Option ℚ) (t2 : ℚ), s2.isPlaying = false →
      playFrame s2 lt2 t2 = ⟨s2, lt2, false⟩) := by
  refine ⟨?_, ?_, ?_⟩
  · simp [playFrame, hp, hend]
  · simp [playFrame, hp, hend]
  · intro s2 lt2 t2 h
    simp [playFrame, h]

/-- Concrete playing state for the C3 witness: axis [1990, 2000] with the
resolved end already at the maximum. -/
def c3state : Timeline :=
  { mkTimeline [1990, 2000] (TimeBound.year 1990) (TimeBound.year 2000) with
    isPlaying := true }

/-- Concrete stopped state for the C3 witness. -/
def c3stopped : Timeline :=
  mkTimeline [1990, 2000] (TimeBound.year 1990) (TimeBound.year 1995)

/-- The resolved end of the C3 witness state. -/
lemma c3state_endYearUI : endYearUI c3state = 2000 := by
  norm_num [endYearUI, endYear, c3state, mkTimeline, tbMax, TimeBound.le,
    getYearUI]

/-- Claim C3, witnessed: on the first tick the axis [1990, 2000] state with
end at the maximum rewinds to 1990 and keeps playing; on a later tick it
stops with bounds unchanged; a stopped state is left untouched by a tick. -/
theorem c3_witness :
    ((playFrame c3state none 0).state.startYearRaw =
       TimeBound.year (minYear c3state) ∧
     (playFrame c3state none 0).state.endYearRaw =
       TimeBound.year (minYear c3state) ∧
     (playFrame c3state none 0).state.isPlaying = true) ∧
    ((playFrame c3state (some 0) 200).state.isPlaying = false ∧
     (playFrame c3state (some 0) 200).state.startYearRaw = c3state.startYearRaw ∧
     (playFrame c3state (some 0) 200).state.endYearRaw = c3state.endYearRaw) ∧
    playFrame c3stopped none 7 = ⟨c3stopped, none, false⟩ := by
  have h := c3_playback_rewind_and_stop c3state 200 0 rfl
    (by rw [ge_iff_le, c3state_endYearUI,
          show maxYear c3state = 2000 from rfl])
  have h0 := c3_playback_rewind_and_stop c3state 0 0 rfl
    (by rw [ge_iff_le, c3state_endYearUI,
          show maxYear c3state = 2000 from rfl])
  exact ⟨h0.1, h.2.1, h.2.2 c3stopped none 7 rfl⟩

/-! ### Claim C4 (code bug) -/

/-- Advance branch of a later playback tick: end not yet at the maximum, no
single-year mode, so the raw end moves by the elapsed-time-scaled step and
another frame is requested. -/
lemma playFrame_advance (s : Timeline) (lt t : ℚ)
    (hp : s.isPlaying = true)
    (hend : ¬ endYearUI s ≥ maxYear s)
    (hsm : (s.singleYearMode || s.singleYearPlay) = false) :
    (playFrame s (some lt) t).state.endYearRaw =
      TimeBound.year (endYearUI s +
        (max ((s.years.getD (jsIndexOf s.years (endYearUI s) + 1).toNat 0 -
            endYearUI s) / 3) 1 * (t - lt) * ticksPerSec) / 1000) ∧
    (playFrame s (some lt) t).rescheduled = true ∧
    (playFrame s (some lt) t).state.isPlaying = true := by
  simp [playFrame, hp, hend, hsm]

/-- Concrete state for C4: playing mid-axis with a pending playback frame
request (id 1) and a pending coalesced pointer-move frame (id 2). -/
def c4state : Timeline :=
  { mkTimeline [1990, 2000] (TimeBound.year 1990) (TimeBound.year 1990) with
    isPlaying := true
    animRequest := some 1
    queuedAnimationFrame := some 2 }

/-- The resolved end of the C4 state, unchanged by unmounting. -/
lemma c4state_endYearUI : endYearUI (componentWillUnmount c4state) = 1990 := by
  norm_num [endYearUI, endYear, componentWillUnmount, c4state, mkTimeline,
    tbMax, TimeBound.le, getYearUI]

/-- Claim C4 evaluated at the failing input: `componentWillUnmount` removes
the listeners and disposes the reactions but leaves both pending
animation-frame requests pending and playback on, and the still-scheduled
playback callback then mutates the raw end and requests yet another frame —
state mutation after teardown, contradicting the claim that unmounting
cancels every outstanding animation-frame request. -/
theorem c4_unmount_cancels_nothing :
    (componentWillUnmount c4state).listenersAttached = false ∧
    (componentWillUnmount c4state).reactionsActive = false ∧
    (componentWillUnmount c4state).animRequest = some 1 ∧
    (componentWillUnmount c4state).queuedAnimationFrame = some 2 ∧
    (componentWillUnmount c4state).isPlaying = true ∧
    (playFrame (componentWillUnmount c4state) (some 0) 100).state.endYearRaw ≠
      (componentWillUnmount c4state).endYearRaw ∧
    (playFrame (componentWillUnmount c4state) (some 0) 100).rescheduled = true := by
  have hadv := playFrame_advance (componentWillUnmount c4state) 0 100 rfl
    (by rw [ge_iff_le, c4state_endYearUI, show maxYear (componentWillUnmount c4state) = 2000 from rfl]
        norm_num)
    rfl
  refine ⟨rfl, rfl, rfl, rfl, rfl, ?_, hadv.2.1⟩
  rw [hadv.1, c4state_endYearUI]
  have hnext : (componentWillUnmount c4state).years.getD
      (jsIndexOf (componentWillUnmount c4state).years 1990 + 1).toNat 0 = 2000 := by
    norm_num [componentWillUnmount, c4state, mkTimeline, jsIndexOf]
  rw [hnext]
  show TimeBound.year _ ≠ TimeBound.year 1990
  simp only [ne_eq, TimeBound.year.injEq]
  norm_num [ticksPerSec]

/-! ### Claim C10 -/

/-- Unfolding of `getClosest` on a concrete year. -/
lemma getClosest_year_eq (s : Timeline) (y : ℚ) (d : TimeBound) :
    getClosest s (TimeBound.year y) d =
      (match findClosestYear s.years y with
       | some m => TimeBound.year m
       | none => d) := rfl

/-- Every bound is at or below the unbounded-right sentinel. -/
lemma tbLe_toRight (a : TimeBound) : a.le TimeBound.unboundedRight = true := by
  cases a <;> rfl

/-- The unbounded-left sentinel is at or below every bound. -/
lemma tbLe_fromLeft (b : TimeBound) : TimeBound.unboundedLeft.le b = true := by
  cases b <;> rfl

/-- The snapped resolved bounds are ordered: snapping preserves the order of
the resolved start and end. -/
lemma tbLe_closest (s : Timeline) :
    (startYearClosest s).le (endYearClosest s) = true := by
  have hse : (startYear s).le (endYear s) = true :=
    tbLe_min_max s.startYearRaw s.endYearRaw
  unfold startYearClosest endYearClosest
  cases hs : startYear s with
  | unboundedLeft => exact tbLe_fromLeft _
  | unboundedRight =>
    rw [hs] at hse
    rw [unboundedRight_tbLe hse]
    rfl
  | year x =>
    cases he : endYear s with
    | unboundedLeft =>
      rw [hs, he] at hse
      simp [TimeBound.le] at hse
    | unboundedRight =>
      exact tbLe_toRight _
    | year z =>
      rw [hs, he] at hse
      have hxz : x ≤ z := by simpa [TimeBound.le] using hse
      rw [getClosest_year_eq, getClosest_year_eq]
      cases hm : findClosestYear s.years x with
      | none => exact tbLe_fromLeft _
      | some m =>
        cases hm2 : findClosestYear s.years z with
        | none => exact tbLe_toRight _
        | some m2 =>
          simpa [TimeBound.le] using findClosestYear_mono hxz hm hm2

/-- Snapping a snapped bound is the identity: the result of `getClosest` with
a sentinel default is a sentinel or an axis member, and both re-snap to
themselves over the same axis. -/
lemma getClosest_stable (s s2 : Timeline) (hy : s2.years = s.years)
    (b d d2 : TimeBound) (hd : isUnbounded d = true) :
    getClosest s2 (getClosest s b d) d2 = getClosest s b d := by
  cases b with
  | unboundedLeft => rfl
  | unboundedRight => rfl
  | year y =>
    rw [getClosest_year_eq]
    cases hm : findClosestYear s.years y with
    | none =>
      cases d with
      | unboundedLeft => rfl
      | unboundedRight => rfl
      | year q => simp [isUnbounded, isUnboundedLeft, isUnboundedRight] at hd
    | some m =>
      have hmem : m ∈ s2.years := hy ▸ findClosestYear_mem hm
      rw [getClosest_year_eq, findClosestYear_self hmem]

/-- Claim C10: when neither playing nor dragging, the idle autorun rewrites
the raw bounds to the snapped resolved pair computed atomically from the
pre-state (so the roles cannot flip), and in the resulting idle state the raw
bounds already equal their own snapped resolution. -/
theorem c10_idle_snap_atomic (s : Timeline)
    (hp : s.isPlaying = false) (hd : isDragging s = false) :
    (idleSnap s).startYearRaw = startYearClosest s ∧
    (idleSnap s).endYearRaw = endYearClosest s ∧
    startYearClosest (idleSnap s) = (idleSnap s).startYearRaw ∧
    endYearClosest (idleSnap s) = (idleSnap s).endYearRaw := by
  have hif : idleSnap s =
      { s with
        startYearRaw := startYearClosest s,
        endYearRaw := endYearClosest s } := by
    rw [idleSnap, if_pos ⟨hp, hd⟩]
  have hord := tbLe_closest s
  have hstart : startYear (idleSnap s) = startYearClosest s := by
    rw [hif]
    exact tbMin_eq_left hord
  have hend : endYear (idleSnap s) = endYearClosest s := by
    rw [hif]
    exact tbMax_eq_right hord
  have hyears : (idleSnap s).years = s.years := by rw [hif]
  refine ⟨by rw [hif], by rw [hif], ?_, ?_⟩
  · calc startYearClosest (idleSnap s)
        = getClosest (idleSnap s) (startYear (idleSnap s))
            TimeBound.unboundedLeft := rfl
      _ = getClosest (idleSnap s)
            (getClosest s (startYear s) TimeBound.unboundedLeft)
            TimeBound.unboundedLeft := by rw [hstart]; rfl
      _ = getClosest s (startYear s) TimeBound.unboundedLeft :=
          getClosest_stable s (idleSnap s) hyears (startYear s)
            TimeBound.unboundedLeft TimeBound.unboundedLeft rfl
      _ = (idleSnap s).startYearRaw := by rw [hif]; rfl
  · calc endYearClosest (idleSnap s)
        = getClosest (idleSnap s) (endYear (idleSnap s))
            TimeBound.unboundedRight := rfl
      _ = getClosest (idleSnap s)
            (getClosest s (endYear s) TimeBound.unboundedRight)
            TimeBound.unboundedRight := by rw [hend]; rfl
      _ = getClosest s (endYear s) TimeBound.unboundedRight :=
          getClosest_stable s (idleSnap s) hyears (endYear s)
            TimeBound.unboundedRight TimeBound.unboundedRight rfl
      _ = (idleSnap s).endYearRaw := by rw [hif]; rfl

/-- Concrete idle state for the C10 witness: raw bounds inverted and off-axis
(as a drag can leave them). -/
def c10state : Timeline :=
  mkTimeline [1990, 2000] (TimeBound.year 1993) (TimeBound.year 1991)

/-- Claim C10, witnessed on an idle state with inverted unsnapped raw
bounds. -/
theorem c10_witness :
    (idleSnap c10state).startYearRaw = startYearClosest c10state ∧
    (idleSnap c10state).endYearRaw = endYearClosest c10state ∧
    startYearClosest (idleSnap c10state) = (idleSnap c10state).startYearRaw ∧
    endYearClosest (idleSnap c10state) = (idleSnap c10state).endYearRaw :=
  c10_idle_snap_atomic c10state rfl rfl

end OwidTimeline
